import Mathlib

/-!
Verification of the Rider robot controller core (rider_controller.py,
rider_mqtt.py, rider_screen.py) against its natural-language specification.

The Python code is shallowly embedded: floats become rationals (ℚ), ints
become ℤ/ℕ, SDK actuator calls become an explicit call list, and each
stateful loop body becomes a pure state-transition function.
-/

namespace Rider

/-- Python `int()` conversion on a float: truncation toward zero. -/
def pyTrunc (q : ℚ) : ℤ := if q < 0 then -⌊-q⌋ else ⌊q⌋

/-- One call into the vendor motion SDK, as issued by the controller:
`rider_move_x` (forward speed), `rider_turn` (turn rate, an int), or
`rider_move_y`. -/
inductive SDKCall
  | moveX (v : ℚ)
  | turn (v : ℤ)
  | moveY (v : ℚ)
  deriving DecidableEq, Repr

/-- Argument of the first `rider_move_x` call in a call list. -/
def sentMoveX : List SDKCall → Option ℚ
  | [] => none
  | SDKCall.moveX v :: _ => some v
  | SDKCall.turn _ :: rest => sentMoveX rest
  | SDKCall.moveY _ :: rest => sentMoveX rest

/-- Argument of the first `rider_turn` call in a call list. -/
def sentTurn : List SDKCall → Option ℤ
  | [] => none
  | SDKCall.turn v :: _ => some v
  | SDKCall.moveX _ :: rest => sentTurn rest
  | SDKCall.moveY _ :: rest => sentTurn rest

/-- Forward speed last commanded after applying a call list on top of a
previously commanded speed (`rider_move_x` overwrites it, nothing else
touches it). -/
def lastForwardAfter (init : ℚ) : List SDKCall → ℚ
  | [] => init
  | SDKCall.moveX v :: rest => lastForwardAfter v rest
  | SDKCall.turn _ :: rest => lastForwardAfter init rest
  | SDKCall.moveY _ :: rest => lastForwardAfter init rest

/-- Stick dead zone from `__process_movement` (rider_controller.py): stick
magnitudes below 0.1 are zeroed. -/
def deadZone (v : ℚ) : ℚ := if |v| < 1/10 then 0 else v

/-- Asymmetric scaling from `__process_movement`: backward (negative) speed
is amplified by 1.5 to compensate hardware asymmetry. -/
def amplifyReverse (s : ℚ) : ℚ := if s < 0 then s * (3/2) else s

/-- Safety clamp on forward speed from `__process_movement`:
`max(-0.75, min(0.5, speed))`. -/
def clampSpeed (s : ℚ) : ℚ := max (-3/4) (min (1/2) s)

/-- Minimum-effective-turn rule from `__process_movement`: a non-zero turn
magnitude below 20 is snapped to 20, keeping its sign. -/
def snapTurn (t : ℚ) : ℚ :=
  if 0 < |t| ∧ |t| < 20 then (if 0 < t then 20 else -20) else t

/-- Embedding of `BluetoothController_Rider.__process_movement`
(rider_controller.py lines 569-649): the SDK calls issued for one stick
sample.  `lx ly rx ry` are the raw stick axes in `[-1, 1]`; the left
stick's Y axis is inverted (`speed = -left_stick_y * speed_scale`), the
right stick's X axis drives turning.  If a timed discrete action is in
progress the sample is dropped entirely. -/
def process_movement (actionInProgress : Bool) (now actionEndTime : ℚ)
    (speedScale turnScale : ℚ) (_lx ly rx _ry : ℚ) : List SDKCall :=
  if actionInProgress = true ∧ now < actionEndTime then []
  else
    let ly := deadZone ly
    let rx := deadZone rx
    let forward :=
      if 0 < |ly| then
        [SDKCall.moveX (clampSpeed (amplifyReverse (-ly * speedScale)))]
      else [SDKCall.moveX 0]
    let turning :=
      if 0 < |rx| then [SDKCall.turn (pyTrunc (snapTurn (rx * turnScale)))]
      else [SDKCall.turn 0, SDKCall.moveY 0]
    forward ++ turning

/-- Embedding of the actuator part of `RiderMQTT.__handle_movement_command`
(rider_mqtt.py lines 447-505): for an inbound relay movement message with
payload `x`, `y` in `[-100, 100]`, issue `rider_turn(int(x * 1.0))` when
`x ≠ 0`, `rider_move_x(y / 100 * speed_scale)` when `y ≠ 0`, and an
explicit stop of both axes when `x = 0` and `y = 0`.  No call is made when
no robot handle is attached. -/
def handle_movement_command (robotPresent : Bool) (speedScale : ℚ)
    (x y : ℚ) : List SDKCall :=
  if robotPresent then
    ((if x ≠ 0 then [SDKCall.turn (pyTrunc (x * 1))] else []) ++
     (if y ≠ 0 then [SDKCall.moveX (y / 100 * speedScale)] else []) ++
     (if x = 0 ∧ y = 0 then [SDKCall.moveX 0, SDKCall.turn 0] else []))
  else []

/-- Stored record of the last relay movement command
(`RiderMQTT.__last_movement_command`). -/
structure MovementCmd where
  x : ℚ
  y : ℚ
  timestamp : ℚ
  deriving DecidableEq, Repr

/-- Update of `__last_movement_command` performed at the top of
`__handle_movement_command` for an inbound message. -/
def trackMovementCommand (x y ts : ℚ) : MovementCmd := ⟨x, y, ts⟩

/-- State read and written by `RiderMQTT.__connection_monitoring_loop`. -/
structure MonitorState where
  lastClientActivity : ℚ
  safetyTriggered : Bool
  clientConnected : Bool
  connectionStatus : String
  lastCmd : MovementCmd
  deriving DecidableEq, Repr

/-- Observable side effects of one monitor iteration: the SDK stop plus
`safety_stop` event published for an inactive client, and the SDK stop for
a stale movement command. -/
inductive MonitorEvent
  | sdkStopInactive
  | publishSafetyStop
  | sdkStopStale
  deriving DecidableEq, Repr

/-- Client-inactivity timeout (`__connection_timeout = 30.0`). -/
def connectionTimeout : ℚ := 30

/-- Movement-command staleness timeout (`__movement_command_timeout = 2.0`). -/
def movementCommandTimeout : ℚ := 2

/-- Embedding of `RiderMQTT.__trigger_safety_stop_for_inactive_client`
(rider_mqtt.py lines 287-313): with no robot handle it returns immediately
and neither the SDK stop nor the `safety_stop` publish happens; otherwise
the SDK axes are zeroed, and the `safety_stop` event is published only
while the bus session is connected (`if self.__client and
self.__connected`). -/
def trigger_safety_stop_for_inactive_client (robotPresent connected : Bool) :
    List MonitorEvent :=
  if robotPresent then
    MonitorEvent.sdkStopInactive ::
      (if connected then [MonitorEvent.publishSafetyStop] else [])
  else []

/-- Embedding of `RiderMQTT.__stop_robot_movement` (rider_mqtt.py lines
315-329) as used by the staleness check: with no robot handle it returns
immediately, otherwise it zeroes all SDK axes. -/
def stop_robot_movement (robotPresent : Bool) : List MonitorEvent :=
  if robotPresent then [MonitorEvent.sdkStopStale] else []

/-- Client-inactivity check of `__connection_monitoring_loop` (rider_mqtt.py
lines 247-268): beyond the timeout, an untriggered state calls
`__trigger_safety_stop_for_inactive_client` (whose effects depend on the
robot handle and the bus connection), sets `client_timeout` status and
latches the trigger flag; within the timeout a triggered state is restored
to `connected` and the flag is cleared.  The status/flag updates happen in
the loop body itself, independent of the robot handle. -/
def inactivity_check (robotPresent connected : Bool) (s : MonitorState)
    (now : ℚ) : MonitorState × List MonitorEvent :=
  if connectionTimeout < now - s.lastClientActivity then
    if s.safetyTriggered then (s, ([] : List MonitorEvent))
    else ({ s with safetyTriggered := true, clientConnected := false,
                   connectionStatus := "client_timeout" },
          trigger_safety_stop_for_inactive_client robotPresent connected)
  else
    if s.safetyTriggered then
      ({ s with safetyTriggered := false, clientConnected := true,
                connectionStatus := "connected" }, [])
    else (s, [])

/-- Movement-staleness check of `__connection_monitoring_loop` (rider_mqtt.py
lines 270-278): when the stored command is older than the timeout and
non-zero, call `__stop_robot_movement` (a no-op without a robot handle) and
reset the stored command to zero at the current time. -/
def staleness_check (robotPresent : Bool) (s : MonitorState) (now : ℚ) :
    MonitorState × List MonitorEvent :=
  if movementCommandTimeout < now - s.lastCmd.timestamp ∧
      (s.lastCmd.x ≠ 0 ∨ s.lastCmd.y ≠ 0) then
    ({ s with lastCmd := ⟨0, 0, now⟩ }, stop_robot_movement robotPresent)
  else (s, ([] : List MonitorEvent))

/-- Embedding of one iteration of `RiderMQTT.__connection_monitoring_loop`
(rider_mqtt.py lines 241-285): first the client-inactivity check with its
one-shot trigger flag, then the movement-staleness check.  `robotPresent`
says whether a robot SDK handle is attached, `connected` whether the bus
session is up. -/
def connection_monitor_tick (robotPresent connected : Bool)
    (s : MonitorState) (now : ℚ) : MonitorState × List MonitorEvent :=
  let inactive := inactivity_check robotPresent connected s now
  let stale := staleness_check robotPresent inactive.1 now
  (stale.1, inactive.2 ++ stale.2)

/-- Iterated monitor ticks at the given times, collecting all events. -/
def runTicks (robotPresent connected : Bool) (s : MonitorState) :
    List ℚ → MonitorState × List MonitorEvent
  | [] => (s, [])
  | t :: ts =>
    let step := connection_monitor_tick robotPresent connected s t
    let rest := runTicks robotPresent connected step.1 ts
    (rest.1, step.2 ++ rest.2)

/-- Client-activity update performed by `RiderMQTT.__on_message` for every
inbound message (`self.__last_client_activity = time.time()`). -/
def recordClientActivity (s : MonitorState) (now : ℚ) : MonitorState :=
  { s with lastClientActivity := now }

/-- Pygame input events relevant to
`BluetoothController_Rider.__check_controller_activity`. -/
inductive PadEvent
  | joyAxisMotion
  | joyButtonDown
  | joyButtonUp
  | joyHatMotion
  | joyDeviceAdded
  | joyDeviceRemoved
  deriving DecidableEq, Repr

/-- Controller-connection state tracked by the teleop controller. -/
structure ControllerState where
  lastControllerActivity : ℚ
  controllerConnected : Bool
  deriving DecidableEq, Repr

/-- Event processing inside `__check_controller_activity`: axis, button and
hat events refresh the activity timestamp; a device-attach event refreshes
it and marks the controller connected; a device-detach event is
deliberately ignored (the timeout alone handles it). -/
def processPadEvent (now : ℚ) (s : ControllerState) (e : PadEvent) :
    ControllerState :=
  match e with
  | PadEvent.joyAxisMotion => { s with lastControllerActivity := now }
  | PadEvent.joyButtonDown => { s with lastControllerActivity := now }
  | PadEvent.joyButtonUp => { s with lastControllerActivity := now }
  | PadEvent.joyHatMotion => { s with lastControllerActivity := now }
  | PadEvent.joyDeviceAdded =>
      { lastControllerActivity := now, controllerConnected := true }
  | PadEvent.joyDeviceRemoved => s

/-- Controller-inactivity timeout (`__controller_timeout = 10.0`). -/
def controllerTimeout : ℚ := 10

/-- Embedding of `BluetoothController_Rider.__check_controller_activity`
(rider_controller.py lines 424-507): drain pending pygame events, then
decide connectivity from the enumerated-device count and the activity
timeout. -/
def check_controller_activity (s : ControllerState) (events : List PadEvent)
    (deviceCount : ℕ) (now : ℚ) : ControllerState :=
  let s1 := events.foldl (processPadEvent now) s
  if deviceCount = 0 then { s1 with controllerConnected := false }
  else if now - s1.lastControllerActivity ≤ controllerTimeout then
    { s1 with controllerConnected := true }
  else { s1 with controllerConnected := false }

/-- Steps of the graceful-shutdown sequence of `RiderMQTT`, in execution
order. -/
inductive ShutdownAction
  | setShutdownFlag
  | sdkZeroAll
  | publishEmergencyStop
  | setStatusDisconnecting
  | publishStatus
  | sleepForDelivery
  | closeSession
  | disconnectSafetyStop
  deriving DecidableEq, Repr

/-- Embedding of `RiderMQTT.__send_safety_shutdown_commands` (rider_mqtt.py
lines 177-212): with no robot handle or no bus connection it returns
immediately; otherwise it zeroes all axes, publishes the `emergency_stop`
event, sets the `disconnecting` status and publishes status. -/
def send_safety_shutdown_commands (robotPresent connected : Bool) :
    List ShutdownAction :=
  if robotPresent = true ∧ connected = true then
    [ShutdownAction.sdkZeroAll, ShutdownAction.publishEmergencyStop,
     ShutdownAction.setStatusDisconnecting, ShutdownAction.publishStatus]
  else []

/-- Embedding of `RiderMQTT.__on_disconnect` (rider_mqtt.py lines 362-372):
an extra safety stop is issued only when the shutdown-in-progress flag is
not set. -/
def on_disconnect (shutdownInProgress : Bool) : List ShutdownAction :=
  if shutdownInProgress then [] else [ShutdownAction.disconnectSafetyStop]

/-- Embedding of `RiderMQTT.graceful_disconnect` (rider_mqtt.py lines
152-212): set the shutdown flag first, send the safety shutdown commands,
wait briefly, close the bus session; the broker disconnect callback then
runs with the flag already set. -/
def graceful_disconnect (robotPresent connected : Bool) :
    List ShutdownAction :=
  ShutdownAction.setShutdownFlag ::
    (send_safety_shutdown_commands robotPresent connected ++
     [ShutdownAction.sleepForDelivery, ShutdownAction.closeSession] ++
     on_disconnect true)

/-- Battery bookkeeping of `RiderMQTT`: consecutive failure count, last
known good value, and the published `battery_level` field. -/
structure MqttBattery where
  batteryReadFailures : ℕ
  lastKnownBattery : ℤ
  batteryLevel : Option ℤ
  deriving DecidableEq, Repr

/-- Failure threshold of the MQTT battery reader
(`__max_battery_failures = 3`). -/
def maxBatteryFailures : ℕ := 3

/-- Initial MQTT battery state (`battery_level = None`,
`__last_known_battery = 50`, no failures yet). -/
def initMqttBattery : MqttBattery :=
  { batteryReadFailures := 0, lastKnownBattery := 50, batteryLevel := none }

/-- Embedding of `RiderMQTT.__get_real_battery_level` validation
(rider_mqtt.py lines 865-916): absent robot or absent reading yields
`none`; a negative reading is rejected; a reading above 100 is clamped to
100. -/
def get_real_battery_level (robotPresent : Bool) (raw : Option ℤ) :
    Option ℤ :=
  if robotPresent then
    match raw with
    | none => none
    | some b => if b < 0 then none else if 100 < b then some 100 else some b
  else none

/-- Embedding of `RiderMQTT.__update_battery_data` (rider_mqtt.py lines
827-863): a success resets the failure counter and caches the value; a
failure increments the counter and reports the cached value; finally the
reported level is forced non-null and clamped to `[0, 100]`. -/
def update_battery_data (s : MqttBattery) (real : Option ℤ) : MqttBattery :=
  let s1 : MqttBattery :=
    match real with
    | some v =>
        { batteryReadFailures := 0, lastKnownBattery := v,
          batteryLevel := some v }
    | none =>
        let f := s.batteryReadFailures + 1
        if f ≤ maxBatteryFailures then
          { s with batteryReadFailures := f,
                   batteryLevel :=
                     match s.batteryLevel with
                     | none => some s.lastKnownBattery
                     | some b => some b }
        else
          { s with batteryReadFailures := f,
                   batteryLevel := some s.lastKnownBattery }
  let lvl := s1.batteryLevel.getD s1.lastKnownBattery
  { s1 with batteryLevel := some (max 0 (min 100 lvl)) }

/-- Battery bookkeeping of `RiderScreen`: consecutive failure count, last
good value, and the consecutive-success counter used for counter amnesty. -/
structure ScreenBattery where
  batteryReadFailures : ℕ
  lastGoodBattery : ℤ
  consecutiveSuccessfulReads : ℕ
  deriving DecidableEq, Repr

/-- Screen battery failure threshold (`__max_battery_failures = 5`). -/
def maxScreenBatteryFailures : ℕ := 5

/-- Initial screen battery state (rider_screen.py lines 56-62). -/
def initScreenBattery : ScreenBattery :=
  { batteryReadFailures := 0, lastGoodBattery := 50,
    consecutiveSuccessfulReads := 0 }

/-- Failure branch of the battery handling in `RiderScreen.refresh_from_robot`
(rider_screen.py lines 492-508): increment the failure counter, reset the
success streak, and display the cached value while within the threshold
but 0 beyond it. -/
def refreshBatteryFail (s : ScreenBattery) : ScreenBattery × ℚ :=
  let f := s.batteryReadFailures + 1
  ({ s with batteryReadFailures := f, consecutiveSuccessfulReads := 0 },
   if f ≤ maxScreenBatteryFailures then (s.lastGoodBattery : ℚ) else 0)

/-- Embedding of the battery handling in `RiderScreen.refresh_from_robot`
(rider_screen.py lines 467-519): result is the updated bookkeeping state
and the value passed to `update_battery` (the displayed value).  A reading
counts as successful only when it is non-null and strictly positive. -/
def refresh_battery (s : ScreenBattery) (reading : Option ℚ) :
    ScreenBattery × ℚ :=
  match reading with
  | some v =>
      if 0 < v then
        ({ s with batteryReadFailures := 0, lastGoodBattery := pyTrunc v }, v)
      else refreshBatteryFail s
  | none => refreshBatteryFail s

/-- State evolution of the screen battery bookkeeping over a sequence of
readings. -/
def screenFold (s : ScreenBattery) (rs : List (Option ℚ)) : ScreenBattery :=
  rs.foldl (fun st r => (refresh_battery st r).1) s

/-- Outcome of one call of a sensor-read function as observed by
`RiderScreen.__read_sensor_with_retry`: a non-null numeric value, a null
return, or an exception (including a failing `float()` conversion). -/
inductive SensorAttempt
  | val (q : ℚ)
  | nullRet
  | err
  deriving DecidableEq, Repr

/-- Recursion of `__read_sensor_with_retry` on the remaining allowed
attempts: `outs i` is the outcome of the `i`-th call; the result is the
returned value together with the number of calls made and the number of
backoff sleeps taken.  A sleep happens only in the exception branch and
only when this is not the final attempt (`attempt < max_retries`). -/
def retryFuel (outs : ℕ → SensorAttempt) : ℕ → ℕ → Option ℚ × ℕ × ℕ
  | _, 0 => (none, 0, 0)
  | i, fuel + 1 =>
    match outs i with
    | SensorAttempt.val q => (some q, 1, 0)
    | SensorAttempt.nullRet =>
        let r := retryFuel outs (i + 1) fuel
        (r.1, r.2.1 + 1, r.2.2)
    | SensorAttempt.err =>
        let r := retryFuel outs (i + 1) fuel
        (r.1, r.2.1 + 1, r.2.2 + (if fuel = 0 then 0 else 1))

/-- Embedding of `RiderScreen.__read_sensor_with_retry` (rider_screen.py
lines 574-586) with `max_retries = maxRetries`: up to `maxRetries + 1`
calls starting at attempt index 0. -/
def read_sensor_with_retry (outs : ℕ → SensorAttempt) (maxRetries : ℕ) :
    Option ℚ × ℕ × ℕ :=
  retryFuel outs 0 (maxRetries + 1)

/-- Concrete sensor outcome sequence used to exercise the retry contract:
the first call raises, the second returns the numeric value 7. -/
def exOuts : ℕ → SensorAttempt :=
  fun i => if i = 0 then SensorAttempt.err else SensorAttempt.val 7

/-- Clamp applied to the requested speed scale by
`RiderMQTT.__handle_settings_command` (`max(0.1, min(2.0, new_speed))`). -/
def clampSpeedScale (v : ℚ) : ℚ := max (1/10) (min 2 v)

/-- Settings actions understood by `__handle_settings_command`. -/
inductive SettingsAction
  | toggleRollBalance
  | togglePerformance
  | changeSpeed (v : ℚ)
  | other
  deriving DecidableEq, Repr

/-- Speed-scale field after `RiderMQTT.__handle_settings_command`
(rider_mqtt.py lines 507-548): only a `change_speed` action with an
attached robot touches it, storing the clamped requested value. -/
def handle_settings_command_speed (robotPresent : Bool) (cur : ℚ)
    (a : SettingsAction) : ℚ :=
  if robotPresent then
    match a with
    | SettingsAction.changeSpeed v => clampSpeedScale v
    | _ => cur
  else cur

/-- Speed decrement of the L1 button in
`BluetoothController_Rider.__process_buttons` (`max(0.1, s - 0.1)`). -/
def speedDown (s : ℚ) : ℚ := max (1/10) (s - 1/10)

/-- Speed increment of the R1 button in
`BluetoothController_Rider.__process_buttons` (`min(2.0, s + 0.1)`). -/
def speedUp (s : ℚ) : ℚ := min 2 (s + 1/10)

/-! Helper lemmas about the connection-monitor loop. -/

/-- Unfolding of `runTicks` on a cons cell. -/
theorem runTicks_cons (rp c : Bool) (s : MonitorState) (t : ℚ)
    (ts : List ℚ) :
    runTicks rp c s (t :: ts) =
      ((runTicks rp c (connection_monitor_tick rp c s t).1 ts).1,
       (connection_monitor_tick rp c s t).2 ++
         (runTicks rp c (connection_monitor_tick rp c s t).1 ts).2) := rfl

/-- The inactivity check never touches the stored movement command or the
client-activity timestamp, and never emits a staleness event. -/
theorem inactivity_check_frame (rp c : Bool) (s : MonitorState) (t : ℚ) :
    (inactivity_check rp c s t).1.lastCmd = s.lastCmd ∧
    (inactivity_check rp c s t).1.lastClientActivity =
      s.lastClientActivity ∧
    (inactivity_check rp c s t).2.count MonitorEvent.sdkStopStale = 0 := by
  unfold inactivity_check trigger_safety_stop_for_inactive_client
  split_ifs <;> simp

/-- The staleness check never touches the trigger flag, the connection
status or the client-activity timestamp, and never emits inactivity
events. -/
theorem staleness_check_frame (rp : Bool) (s : MonitorState) (t : ℚ) :
    (staleness_check rp s t).1.safetyTriggered = s.safetyTriggered ∧
    (staleness_check rp s t).1.connectionStatus = s.connectionStatus ∧
    (staleness_check rp s t).1.lastClientActivity = s.lastClientActivity ∧
    (staleness_check rp s t).2.count MonitorEvent.publishSafetyStop = 0 ∧
    (staleness_check rp s t).2.count MonitorEvent.sdkStopInactive = 0 := by
  unfold staleness_check stop_robot_movement
  split_ifs <;> simp

/-- A tick on an already-triggered state that is still beyond the
inactivity timeout changes neither the flag, the status nor the activity
timestamp, and emits no inactivity events. -/
theorem tick_triggered_silent (rp c : Bool) (s : MonitorState) (t : ℚ)
    (htrig : s.safetyTriggered = true)
    (ht : connectionTimeout < t - s.lastClientActivity) :
    (connection_monitor_tick rp c s t).1.safetyTriggered = true ∧
    (connection_monitor_tick rp c s t).1.connectionStatus =
      s.connectionStatus ∧
    (connection_monitor_tick rp c s t).1.lastClientActivity =
      s.lastClientActivity ∧
    (connection_monitor_tick rp c s t).2.count
      MonitorEvent.publishSafetyStop = 0 ∧
    (connection_monitor_tick rp c s t).2.count
      MonitorEvent.sdkStopInactive = 0 := by
  have hstep : inactivity_check rp c s t = (s, []) := by
    unfold inactivity_check
    rw [if_pos ht, if_pos htrig]
  have hfr := staleness_check_frame rp s t
  unfold connection_monitor_tick
  rw [hstep]
  simp only [List.nil_append]
  exact ⟨by rw [hfr.1, htrig], hfr.2.1, hfr.2.2.1, hfr.2.2.2.1, hfr.2.2.2.2⟩

/-- With a robot handle attached and the bus connected, a tick on an
untriggered state beyond the inactivity timeout latches the flag, sets
`client_timeout`, and emits exactly one SDK stop and one `safety_stop`
publish. -/
theorem tick_triggers (s : MonitorState) (t : ℚ)
    (htrig : s.safetyTriggered = false)
    (ht : connectionTimeout < t - s.lastClientActivity) :
    (connection_monitor_tick true true s t).1.safetyTriggered = true ∧
    (connection_monitor_tick true true s t).1.connectionStatus =
      "client_timeout" ∧
    (connection_monitor_tick true true s t).1.lastClientActivity =
      s.lastClientActivity ∧
    (connection_monitor_tick true true s t).2.count
      MonitorEvent.publishSafetyStop = 1 ∧
    (connection_monitor_tick true true s t).2.count
      MonitorEvent.sdkStopInactive = 1 := by
  have htrg : trigger_safety_stop_for_inactive_client true true =
      [MonitorEvent.sdkStopInactive, MonitorEvent.publishSafetyStop] := rfl
  have hstep : inactivity_check true true s t =
      ({ s with safetyTriggered := true, clientConnected := false,
                connectionStatus := "client_timeout" },
       [MonitorEvent.sdkStopInactive, MonitorEvent.publishSafetyStop]) := by
    unfold inactivity_check
    rw [if_pos ht, htrig, htrg]
    simp
  set s' : MonitorState :=
    { s with safetyTriggered := true, clientConnected := false,
             connectionStatus := "client_timeout" } with hs'
  have hfr := staleness_check_frame true s' t
  unfold connection_monitor_tick
  rw [hstep]
  refine ⟨?_, ?_, ?_, ?_, ?_⟩
  · rw [hfr.1]
  · rw [hfr.2.1]
  · rw [hfr.2.2.1]
  · simp [List.count_append, hfr.2.2.2.1]
  · simp [List.count_append, hfr.2.2.2.2]

/-- A tick on a triggered state within the inactivity timeout clears the
flag and restores the `connected` status, publishing nothing. -/
theorem tick_resume (rp c : Bool) (s : MonitorState) (t : ℚ)
    (htrig : s.safetyTriggered = true)
    (ht : t - s.lastClientActivity ≤ connectionTimeout) :
    (connection_monitor_tick rp c s t).1.safetyTriggered = false ∧
    (connection_monitor_tick rp c s t).1.connectionStatus = "connected" ∧
    (connection_monitor_tick rp c s t).2.count
      MonitorEvent.publishSafetyStop = 0 := by
  have hstep : inactivity_check rp c s t =
      ({ s with safetyTriggered := false, clientConnected := true,
                connectionStatus := "connected" }, []) := by
    unfold inactivity_check
    rw [if_neg (not_lt.mpr ht), if_pos htrig]
  set s' : MonitorState :=
    { s with safetyTriggered := false, clientConnected := true,
             connectionStatus := "connected" } with hs'
  have hfr := staleness_check_frame rp s' t
  unfold connection_monitor_tick
  rw [hstep]
  refine ⟨?_, ?_, ?_⟩
  · rw [hfr.1]
  · rw [hfr.2.1]
  · simp [hfr.2.2.2.1]

/-- Over any run of ticks all beyond the inactivity timeout, a triggered
state stays triggered, keeps its status and activity timestamp, and no
inactivity event is ever emitted again. -/
theorem runTicks_triggered_silent (rp c : Bool) (ts : List ℚ) :
    ∀ s : MonitorState, s.safetyTriggered = true →
    (∀ u ∈ ts, connectionTimeout < u - s.lastClientActivity) →
    (runTicks rp c s ts).1.safetyTriggered = true ∧
    (runTicks rp c s ts).1.connectionStatus = s.connectionStatus ∧
    (runTicks rp c s ts).1.lastClientActivity = s.lastClientActivity ∧
    (runTicks rp c s ts).2.count MonitorEvent.publishSafetyStop = 0 ∧
    (runTicks rp c s ts).2.count MonitorEvent.sdkStopInactive = 0 := by
  induction ts with
  | nil => intro s htrig _; exact ⟨htrig, rfl, rfl, rfl, rfl⟩
  | cons t ts ih =>
    intro s htrig hts
    have ht := hts t (List.mem_cons_self t ts)
    have h1 := tick_triggered_silent rp c s t htrig ht
    have hts' : ∀ u ∈ ts, connectionTimeout <
        u - (connection_monitor_tick rp c s t).1.lastClientActivity := by
      intro u hu
      rw [h1.2.2.1]
      exact hts u (List.mem_cons_of_mem t hu)
    have h2 := ih (connection_monitor_tick rp c s t).1 h1.1 hts'
    rw [runTicks_cons]
    refine ⟨h2.1, ?_, ?_, ?_, ?_⟩
    · rw [h2.2.1, h1.2.1]
    · rw [h2.2.2.1, h1.2.2.1]
    · simp [List.count_append, h1.2.2.2.1, h2.2.2.2.1]
    · simp [List.count_append, h1.2.2.2.2, h2.2.2.2.2]

/-- Unfolding of a monitor tick into its two sequential checks. -/
theorem connection_monitor_tick_eq (rp c : Bool) (s : MonitorState)
    (t : ℚ) :
    connection_monitor_tick rp c s t =
      ((staleness_check rp (inactivity_check rp c s t).1 t).1,
       (inactivity_check rp c s t).2 ++
         (staleness_check rp (inactivity_check rp c s t).1 t).2) := rfl

/-- A tick leaves a zeroed movement command untouched and emits no
staleness event. -/
theorem tick_zero_cmd (rp c : Bool) (s : MonitorState) (t : ℚ)
    (hx : s.lastCmd.x = 0) (hy : s.lastCmd.y = 0) :
    (connection_monitor_tick rp c s t).1.lastCmd = s.lastCmd ∧
    (connection_monitor_tick rp c s t).2.count
      MonitorEvent.sdkStopStale = 0 := by
  have hfr := inactivity_check_frame rp c s t
  have hstale : staleness_check rp (inactivity_check rp c s t).1 t =
      ((inactivity_check rp c s t).1, []) := by
    unfold staleness_check
    rw [if_neg]
    rw [hfr.1]
    simp [hx, hy]
  rw [connection_monitor_tick_eq, hstale]
  exact ⟨hfr.1, by simp [List.count_append, hfr.2.2]⟩

/-- Over any run of ticks, a zeroed movement command stays zeroed and no
staleness event is ever emitted. -/
theorem runTicks_zero_cmd (rp c : Bool) (ts : List ℚ) :
    ∀ s : MonitorState, s.lastCmd.x = 0 → s.lastCmd.y = 0 →
    (runTicks rp c s ts).1.lastCmd = s.lastCmd ∧
    (runTicks rp c s ts).2.count MonitorEvent.sdkStopStale = 0 := by
  induction ts with
  | nil => intro s _ _; exact ⟨rfl, rfl⟩
  | cons t ts ih =>
    intro s hx hy
    have h1 := tick_zero_cmd rp c s t hx hy
    have h2 := ih (connection_monitor_tick rp c s t).1
      (by rw [h1.1]; exact hx) (by rw [h1.1]; exact hy)
    rw [runTicks_cons]
    exact ⟨by rw [h2.1, h1.1],
      by simp [List.count_append, h1.2, h2.2]⟩

/-- With a robot handle attached, a tick on a non-zero movement command
older than the staleness timeout zeroes the stored command (stamping it
with the current time) and emits exactly one staleness stop. -/
theorem tick_stale_fires (c : Bool) (s : MonitorState) (t : ℚ)
    (hnz : s.lastCmd.x ≠ 0 ∨ s.lastCmd.y ≠ 0)
    (hage : movementCommandTimeout < t - s.lastCmd.timestamp) :
    (connection_monitor_tick true c s t).1.lastCmd = ⟨0, 0, t⟩ ∧
    (connection_monitor_tick true c s t).2.count
      MonitorEvent.sdkStopStale = 1 := by
  have hfr := inactivity_check_frame true c s t
  have hstop : stop_robot_movement true = [MonitorEvent.sdkStopStale] := rfl
  have hstale : staleness_check true (inactivity_check true c s t).1 t =
      ({ (inactivity_check true c s t).1 with lastCmd := ⟨0, 0, t⟩ },
       [MonitorEvent.sdkStopStale]) := by
    unfold staleness_check
    rw [hstop, if_pos]
    rw [hfr.1]
    exact ⟨hage, hnz⟩
  rw [connection_monitor_tick_eq, hstale]
  exact ⟨rfl, by simp [List.count_append, hfr.2.2]⟩

/-! Claim theorems for the safety-watchdog loop. -/

/-- C2 counterexample: in the reachable robot-less relay configuration
(`RiderMQTT` built without a robot, as in the standalone MQTT test), a
silent client still transitions the stored status to `client_timeout`, but
`__trigger_safety_stop_for_inactive_client` returns before both the SDK
stop and the `safety_stop` publish — zero stops and zero publishes, not
exactly one as claimed. -/
theorem client_timeout_no_robot_counterexample :
    (runTicks false true ⟨0, false, true, "connected", ⟨0, 0, 0⟩⟩
        [31]).1.connectionStatus = "client_timeout" ∧
    (runTicks false true ⟨0, false, true, "connected", ⟨0, 0, 0⟩⟩
        [31]).2.count MonitorEvent.publishSafetyStop = 0 ∧
    (runTicks false true ⟨0, false, true, "connected", ⟨0, 0, 0⟩⟩
        [31]).2.count MonitorEvent.sdkStopInactive = 0 ∧
    ¬ ((runTicks false true ⟨0, false, true, "connected", ⟨0, 0, 0⟩⟩
        [31]).2.count MonitorEvent.publishSafetyStop = 1) := by
  have htick : connection_monitor_tick false true
      ⟨0, false, true, "connected", ⟨0, 0, 0⟩⟩ 31 =
      (⟨0, true, false, "client_timeout", ⟨0, 0, 0⟩⟩, []) := by
    rw [connection_monitor_tick_eq]
    have hin : inactivity_check false true
        ⟨0, false, true, "connected", ⟨0, 0, 0⟩⟩ 31 =
        (⟨0, true, false, "client_timeout", ⟨0, 0, 0⟩⟩, []) := by
      unfold inactivity_check trigger_safety_stop_for_inactive_client
      norm_num [connectionTimeout]
    rw [hin]
    unfold staleness_check
    norm_num [movementCommandTimeout]
  have hrun : runTicks false true
      ⟨0, false, true, "connected", ⟨0, 0, 0⟩⟩ [31] =
      (⟨0, true, false, "client_timeout", ⟨0, 0, 0⟩⟩, []) := by
    rw [runTicks_cons, htick]
    rfl
  rw [hrun]
  refine ⟨rfl, rfl, rfl, ?_⟩
  norm_num

/-- C2 (amended): with a robot SDK handle attached and the bus connected,
for every run in which remote-client activity stops for longer than the
30-second inactivity timeout, the stored connection status transitions to
`client_timeout` exactly once — one SDK stop issued and one `safety_stop`
event published, with no duplicates on subsequent monitor ticks while the
client stays silent — and when client activity resumes, the next in-timeout
tick restores the `connected` status and clears the trigger flag.  (Without
a robot handle the status transition still happens but no stop is issued
and no event is published.) -/
theorem client_timeout_once (s : MonitorState) (t : ℚ) (ts : List ℚ)
    (htrig : s.safetyTriggered = false)
    (ht : connectionTimeout < t - s.lastClientActivity)
    (hts : ∀ u ∈ ts, connectionTimeout < u - s.lastClientActivity)
    (tResume tNext : ℚ) (hresume : tNext - tResume ≤ connectionTimeout) :
    (runTicks true true s (t :: ts)).2.count
      MonitorEvent.publishSafetyStop = 1 ∧
    (runTicks true true s (t :: ts)).2.count
      MonitorEvent.sdkStopInactive = 1 ∧
    (runTicks true true s (t :: ts)).1.safetyTriggered = true ∧
    (runTicks true true s (t :: ts)).1.connectionStatus =
      "client_timeout" ∧
    (connection_monitor_tick true true (recordClientActivity
        (runTicks true true s (t :: ts)).1 tResume)
        tNext).1.safetyTriggered = false ∧
    (connection_monitor_tick true true (recordClientActivity
        (runTicks true true s (t :: ts)).1 tResume)
        tNext).1.connectionStatus = "connected" ∧
    (connection_monitor_tick true true (recordClientActivity
        (runTicks true true s (t :: ts)).1 tResume)
        tNext).2.count MonitorEvent.publishSafetyStop = 0 := by
  have h1 := tick_triggers s t htrig ht
  have hts' : ∀ u ∈ ts, connectionTimeout <
      u - (connection_monitor_tick true true s t).1.lastClientActivity := by
    intro u hu
    rw [h1.2.2.1]
    exact hts u hu
  have h2 := runTicks_triggered_silent true true ts
    (connection_monitor_tick true true s t).1 h1.1 hts'
  have hTrig : (runTicks true true s (t :: ts)).1.safetyTriggered = true := by
    rw [runTicks_cons]; exact h2.1
  have hStat : (runTicks true true s (t :: ts)).1.connectionStatus =
      "client_timeout" := by
    rw [runTicks_cons, h2.2.1, h1.2.1]
  have hrec : (recordClientActivity (runTicks true true s (t :: ts)).1
      tResume).safetyTriggered = true := by
    simpa [recordClientActivity] using hTrig
  have hlca : tNext - (recordClientActivity
      (runTicks true true s (t :: ts)).1
      tResume).lastClientActivity ≤ connectionTimeout := by
    simpa [recordClientActivity] using hresume
  have h3 := tick_resume true true (recordClientActivity
    (runTicks true true s (t :: ts)).1 tResume) tNext hrec hlca
  refine ⟨?_, ?_, hTrig, hStat, h3.1, h3.2.1, h3.2.2⟩
  · rw [runTicks_cons]
    simp [List.count_append, h1.2.2.2.1, h2.2.2.2.1]
  · rw [runTicks_cons]
    simp [List.count_append, h1.2.2.2.2, h2.2.2.2.2]

/-- Witness for `client_timeout_once`: a concrete silent run with ticks at
31 s and 32 s after the last activity at 0, then activity at 40 s and a
tick at 50 s, with the robot attached and the bus connected. -/
theorem client_timeout_once_witness :
    (runTicks true true ⟨0, false, true, "connected", ⟨0, 0, 0⟩⟩
        [31, 32]).2.count MonitorEvent.publishSafetyStop = 1 ∧
    (runTicks true true ⟨0, false, true, "connected", ⟨0, 0, 0⟩⟩
        [31, 32]).2.count MonitorEvent.sdkStopInactive = 1 ∧
    (runTicks true true ⟨0, false, true, "connected", ⟨0, 0, 0⟩⟩
        [31, 32]).1.safetyTriggered = true ∧
    (runTicks true true ⟨0, false, true, "connected", ⟨0, 0, 0⟩⟩
        [31, 32]).1.connectionStatus = "client_timeout" ∧
    (connection_monitor_tick true true (recordClientActivity
        (runTicks true true ⟨0, false, true, "connected", ⟨0, 0, 0⟩⟩
          [31, 32]).1 40) 50).1.safetyTriggered = false ∧
    (connection_monitor_tick true true (recordClientActivity
        (runTicks true true ⟨0, false, true, "connected", ⟨0, 0, 0⟩⟩
          [31, 32]).1 40) 50).1.connectionStatus = "connected" ∧
    (connection_monitor_tick true true (recordClientActivity
        (runTicks true true ⟨0, false, true, "connected", ⟨0, 0, 0⟩⟩
          [31, 32]).1 40) 50).2.count
        MonitorEvent.publishSafetyStop = 0 := by
  exact client_timeout_once ⟨0, false, true, "connected", ⟨0, 0, 0⟩⟩ 31 [32]
    rfl (by norm_num [connectionTimeout])
    (by
      intro u hu
      rcases List.mem_singleton.mp hu with rfl
      norm_num [connectionTimeout])
    40 50 (by norm_num [connectionTimeout])

/-- C3 counterexample: in the reachable robot-less relay configuration a
non-zero stale command is reset to zero, but `__stop_robot_movement`
returns before any SDK call — zero actuator commands are issued, not the
claimed explicit zero command. -/
theorem stale_stop_no_robot_counterexample :
    (runTicks false true ⟨0, false, true, "connected", ⟨50, 0, 0⟩⟩
        [3]).1.lastCmd.x = 0 ∧
    (runTicks false true ⟨0, false, true, "connected", ⟨50, 0, 0⟩⟩
        [3]).2.count MonitorEvent.sdkStopStale = 0 ∧
    ¬ ((runTicks false true ⟨0, false, true, "connected", ⟨50, 0, 0⟩⟩
        [3]).2.count MonitorEvent.sdkStopStale = 1) := by
  have htick : connection_monitor_tick false true
      ⟨0, false, true, "connected", ⟨50, 0, 0⟩⟩ 3 =
      (⟨0, false, true, "connected", ⟨0, 0, 3⟩⟩, []) := by
    rw [connection_monitor_tick_eq]
    have hin : inactivity_check false true
        ⟨0, false, true, "connected", ⟨50, 0, 0⟩⟩ 3 =
        (⟨0, false, true, "connected", ⟨50, 0, 0⟩⟩, []) := by
      unfold inactivity_check trigger_safety_stop_for_inactive_client
      norm_num [connectionTimeout]
    rw [hin]
    unfold staleness_check stop_robot_movement
    norm_num [movementCommandTimeout]
  have hrun : runTicks false true
      ⟨0, false, true, "connected", ⟨50, 0, 0⟩⟩ [3] =
      (⟨0, false, true, "connected", ⟨0, 0, 3⟩⟩, []) := by
    rw [runTicks_cons, htick]
    rfl
  rw [hrun]
  refine ⟨rfl, rfl, ?_⟩
  norm_num

/-- C3 (amended): with a robot SDK handle attached, once the last movement
command is non-zero and its age exceeds the 2-second staleness timeout at a
monitor tick, exactly one staleness stop is issued over the whole remaining
run without new movement messages, and the stored command is reset to zero
(so no second stop follows).  (Without a robot handle the stored command is
still reset but no actuator command is issued.) -/
theorem stale_command_stop_once (c : Bool) (s : MonitorState) (t : ℚ)
    (ts : List ℚ)
    (hnz : s.lastCmd.x ≠ 0 ∨ s.lastCmd.y ≠ 0)
    (hage : movementCommandTimeout < t - s.lastCmd.timestamp) :
    (runTicks true c s (t :: ts)).2.count MonitorEvent.sdkStopStale = 1 ∧
    (runTicks true c s (t :: ts)).1.lastCmd.x = 0 ∧
    (runTicks true c s (t :: ts)).1.lastCmd.y = 0 := by
  have h1 := tick_stale_fires c s t hnz hage
  have h2 := runTicks_zero_cmd true c ts
    (connection_monitor_tick true c s t).1
    (by rw [h1.1]) (by rw [h1.1])
  rw [runTicks_cons]
  refine ⟨by simp [List.count_append, h1.2, h2.2], ?_, ?_⟩
  · rw [h2.1, h1.1]
  · rw [h2.1, h1.1]

/-- Witness for `stale_command_stop_once`: a stored command `{x = 50, y = 0}`
stamped at time 0 with monitor ticks at 3 s, 4 s and 5 s, robot attached. -/
theorem stale_command_stop_once_witness :
    (runTicks true true ⟨0, false, true, "connected", ⟨50, 0, 0⟩⟩
        [3, 4, 5]).2.count MonitorEvent.sdkStopStale = 1 ∧
    (runTicks true true ⟨0, false, true, "connected", ⟨50, 0, 0⟩⟩
        [3, 4, 5]).1.lastCmd.x = 0 ∧
    (runTicks true true ⟨0, false, true, "connected", ⟨50, 0, 0⟩⟩
        [3, 4, 5]).1.lastCmd.y = 0 := by
  exact stale_command_stop_once true
    ⟨0, false, true, "connected", ⟨50, 0, 0⟩⟩
    3 [4, 5] (Or.inl (by norm_num)) (by norm_num [movementCommandTimeout])

/-- C10: a relay movement message with `x ≠ 0` and `y = 0` makes the handler
issue only a turn command to the SDK — no forward-speed call — so a
previously commanded forward speed is left unchanged by that message, and a
monitor tick before the staleness timeout elapses leaves the stored command
(and hence the actuator) untouched as well. -/
theorem relay_turn_only_frame (rp c : Bool) (speedScale x y fwd ts now : ℚ)
    (s : MonitorState)
    (hx : x ≠ 0) (hy : y = 0)
    (hcmd : s.lastCmd = trackMovementCommand x y ts)
    (hfresh : now - ts ≤ movementCommandTimeout) :
    handle_movement_command true speedScale x y =
      [SDKCall.turn (pyTrunc (x * 1))] ∧
    (∀ v : ℚ, SDKCall.moveX v ∉ handle_movement_command true speedScale x y) ∧
    lastForwardAfter fwd (handle_movement_command true speedScale x y) = fwd ∧
    (connection_monitor_tick rp c s now).2.count
      MonitorEvent.sdkStopStale = 0 ∧
    (connection_monitor_tick rp c s now).1.lastCmd = s.lastCmd := by
  have hmain : handle_movement_command true speedScale x y =
      [SDKCall.turn (pyTrunc (x * 1))] := by
    unfold handle_movement_command
    simp [hx, hy]
  have hfr := inactivity_check_frame rp c s now
  have hstale : staleness_check rp (inactivity_check rp c s now).1 now =
      ((inactivity_check rp c s now).1, []) := by
    unfold staleness_check
    rw [if_neg]
    rw [hfr.1, hcmd]
    intro hcon
    exact absurd hcon.1
      (not_lt.mpr (by simpa [trackMovementCommand] using hfresh))
  refine ⟨hmain, ?_, ?_, ?_, ?_⟩
  · intro v
    rw [hmain]
    simp
  · rw [hmain]
    simp [lastForwardAfter]
  · rw [connection_monitor_tick_eq, hstale]
    simp [List.count_append, hfr.2.2]
  · rw [connection_monitor_tick_eq, hstale]
    exact hfr.1

/-- Witness for `relay_turn_only_frame`: message `{x = 50, y = 0}` at time 0
with a previously commanded forward speed of 1/4 and a monitor tick at
1 s. -/
theorem relay_turn_only_frame_witness :
    handle_movement_command true 1 50 0 =
      [SDKCall.turn (pyTrunc (50 * 1))] ∧
    (∀ v : ℚ, SDKCall.moveX v ∉ handle_movement_command true 1 50 0) ∧
    lastForwardAfter (1/4) (handle_movement_command true 1 50 0) = 1/4 ∧
    (connection_monitor_tick true true
        ⟨0, false, true, "connected", ⟨50, 0, 0⟩⟩
        1).2.count MonitorEvent.sdkStopStale = 0 ∧
    (connection_monitor_tick true true
        ⟨0, false, true, "connected", ⟨50, 0, 0⟩⟩
        1).1.lastCmd = (⟨0, false, true, "connected", ⟨50, 0, 0⟩⟩ :
          MonitorState).lastCmd := by
  exact relay_turn_only_frame true true 1 50 0 (1/4) 0 1
    ⟨0, false, true, "connected", ⟨50, 0, 0⟩⟩
    (by norm_num) rfl rfl (by norm_num [movementCommandTimeout])

/-! Claim theorems for the input-device monitor and shutdown sequence. -/

/-- C5: after an activity-check poll, the connected flag is true iff at
least one input device is enumerated and the time since the last recorded
controller activity (after event processing) is at most the 10-second
timeout; a device-detach event alone does not touch the activity timestamp
(so it never flips the flag by itself), and zero enumerated devices force
the flag false regardless of the timestamp. -/
theorem controller_connected_iff (s : ControllerState) (events : List PadEvent)
    (deviceCount : ℕ) (now : ℚ) :
    ((check_controller_activity s events deviceCount now).controllerConnected =
        true ↔
      (0 < deviceCount ∧
        now - (events.foldl (processPadEvent now) s).lastControllerActivity ≤
          controllerTimeout)) ∧
    (check_controller_activity s [PadEvent.joyDeviceRemoved] deviceCount
        now).lastControllerActivity = s.lastControllerActivity := by
  constructor
  · unfold check_controller_activity
    rcases Nat.eq_zero_or_pos deviceCount with h | h
    · simp [h]
    · have h0 : deviceCount ≠ 0 := Nat.pos_iff_ne_zero.mp h
      by_cases ht : now - (events.foldl (processPadEvent now)
          s).lastControllerActivity ≤ controllerTimeout
      · simp [h0, ht, h]
      · simp [h0, ht, h]
  · unfold check_controller_activity
    simp only [List.foldl_cons, List.foldl_nil, processPadEvent]
    split_ifs <;> rfl

/-- C4 counterexample: a graceful disconnect started while the bus is
connected but with no robot SDK handle attached (as in the standalone MQTT
test configuration) publishes no `emergency_stop` event at all, refuting
the claim that exactly one is always published. -/
theorem graceful_disconnect_counterexample :
    (graceful_disconnect false true).count
        ShutdownAction.publishEmergencyStop = 0 ∧
    ¬ ((graceful_disconnect false true).count
        ShutdownAction.publishEmergencyStop = 1) := by
  decide

/-- C4 (amended): for a graceful shutdown initiated while the bus is
connected and a robot SDK handle is attached, the shutdown-in-progress flag
is set before any teardown step, exactly one `emergency_stop` event is
published and it precedes the bus-session close, and the
unexpected-disconnect callback contributes no additional stop. -/
theorem graceful_disconnect_amended :
    (graceful_disconnect true true).head? =
      some ShutdownAction.setShutdownFlag ∧
    (graceful_disconnect true true).count
        ShutdownAction.publishEmergencyStop = 1 ∧
    (graceful_disconnect true true).indexOf
        ShutdownAction.publishEmergencyStop <
      (graceful_disconnect true true).indexOf ShutdownAction.closeSession ∧
    (graceful_disconnect true true).count
        ShutdownAction.disconnectSafetyStop = 0 := by
  decide

/-! Claim theorems for the movement pipelines. -/

/-- Unfolding of `process_movement` into its branch structure. -/
theorem process_movement_eq (a : Bool) (now endTime speedScale turnScale
    lx ly rx ry : ℚ) :
    process_movement a now endTime speedScale turnScale lx ly rx ry =
      if a = true ∧ now < endTime then []
      else
        (if 0 < |deadZone ly| then
          [SDKCall.moveX (clampSpeed (amplifyReverse
            (-deadZone ly * speedScale)))]
         else [SDKCall.moveX 0]) ++
        (if 0 < |deadZone rx| then
          [SDKCall.turn (pyTrunc (snapTurn (deadZone rx * turnScale)))]
         else [SDKCall.turn 0, SDKCall.moveY 0]) := rfl

/-- C6: for every stick sample processed while running (no discrete action
in progress) whose axes are outside the dead zone, the forward-speed value
sent to the SDK is the forward stick deflection times the speed scale,
amplified by 1.5 when the result is a reverse (negative) speed and clamped
to `[-0.75, 0.5]`; the turn value sent is the stick value times the turn
scale (truncated to an int by the SDK interface), with any non-zero scaled
magnitude below 20 snapped to exactly 20 while preserving its sign. -/
theorem stick_movement_pipeline (now endTime speedScale turnScale lx ly rx
    ry : ℚ) (hly : 1/10 ≤ |ly|) (hrx : 1/10 ≤ |rx|) :
    sentMoveX (process_movement false now endTime speedScale turnScale
        lx ly rx ry) =
      some (clampSpeed (amplifyReverse (-ly * speedScale))) ∧
    sentTurn (process_movement false now endTime speedScale turnScale
        lx ly rx ry) =
      some (pyTrunc (snapTurn (rx * turnScale))) ∧
    (0 < |rx * turnScale| → |rx * turnScale| < 20 →
      sentTurn (process_movement false now endTime speedScale turnScale
          lx ly rx ry) =
        some (if 0 < rx * turnScale then 20 else -20)) := by
  have hly0 : ¬ |ly| < 1/10 := not_lt.mpr hly
  have hrx0 : ¬ |rx| < 1/10 := not_lt.mpr hrx
  have hlypos : 0 < |ly| := lt_of_lt_of_le (by norm_num) hly
  have hrxpos : 0 < |rx| := lt_of_lt_of_le (by norm_num) hrx
  have hdly : deadZone ly = ly := by unfold deadZone; rw [if_neg hly0]
  have hdrx : deadZone rx = rx := by unfold deadZone; rw [if_neg hrx0]
  have hcond : ¬ (false = true ∧ now < endTime) := by simp
  have hmain : process_movement false now endTime speedScale turnScale
      lx ly rx ry =
      [SDKCall.moveX (clampSpeed (amplifyReverse (-ly * speedScale))),
       SDKCall.turn (pyTrunc (snapTurn (rx * turnScale)))] := by
    rw [process_movement_eq, if_neg hcond, hdly, hdrx, if_pos hlypos,
      if_pos hrxpos]
    rfl
  refine ⟨by rw [hmain]; rfl, by rw [hmain]; rfl, ?_⟩
  intro h1 h2
  have hsnap : snapTurn (rx * turnScale) =
      if 0 < rx * turnScale then 20 else -20 := by
    unfold snapTurn
    rw [if_pos ⟨h1, h2⟩]
  rw [hmain, hsnap]
  by_cases hpos : 0 < rx * turnScale
  · simp only [hpos, if_true]
    norm_num [sentTurn, pyTrunc]
  · simp only [hpos, if_false]
    norm_num [sentTurn, pyTrunc]

/-- Witness for `stick_movement_pipeline`: stick sample with forward stick
deflection `-1/2` and turn stick `3/20`, speed scale 1, turn scale 100
(scaled turn 15 is snapped to 20). -/
theorem stick_movement_pipeline_witness :
    sentMoveX (process_movement false 0 0 1 100 0 (1/2) (3/20) 0) =
      some (clampSpeed (amplifyReverse (-(1/2) * 1))) ∧
    sentTurn (process_movement false 0 0 1 100 0 (1/2) (3/20) 0) =
      some 20 := by
  have h := stick_movement_pipeline 0 0 1 100 0 (1/2) (3/20) 0
    (by rw [show |(1/2 : ℚ)| = 1/2 from abs_of_pos (by norm_num)]; norm_num)
    (by rw [show |(3/20 : ℚ)| = 3/20 from abs_of_pos (by norm_num)]; norm_num)
  refine ⟨h.1, ?_⟩
  have h3 := h.2.2
    (by rw [show ((3:ℚ)/20 * 100) = 15 by norm_num,
          show |(15 : ℚ)| = 15 from abs_of_pos (by norm_num)]; norm_num)
    (by rw [show ((3:ℚ)/20 * 100) = 15 by norm_num,
          show |(15 : ℚ)| = 15 from abs_of_pos (by norm_num)]; norm_num)
  rw [h3, if_pos (by norm_num : (0:ℚ) < 3/20 * 100)]

/-- C1 counterexample: the relay movement message `{x = 5, y = 5}` lies
strictly inside the claimed dead zone (`|x| < 10`, `|y| < 10`), yet the
handler issues a turn call of 5 and a forward-speed call of 1/20 — the
actuator calls are not zero on either axis. -/
theorem relay_dead_zone_counterexample :
    sentTurn (handle_movement_command true 1 5 5) = some 5 ∧
    sentMoveX (handle_movement_command true 1 5 5) = some (1/20) ∧
    ¬ (sentMoveX (handle_movement_command true 1 5 5) = some 0 ∧
       sentTurn (handle_movement_command true 1 5 5) = some 0) := by
  have h1 : sentTurn (handle_movement_command true 1 5 5) = some 5 := by
    norm_num [handle_movement_command, sentTurn, pyTrunc]
  have h2 : sentMoveX (handle_movement_command true 1 5 5) = some (1/20) := by
    norm_num [handle_movement_command, sentMoveX, sentTurn, pyTrunc]
  refine ⟨h1, h2, ?_⟩
  rintro ⟨ha, _⟩
  rw [h2] at ha
  exact absurd (Option.some.inj ha) (by norm_num)

/-- C1 (amended): the dead-zone guarantee holds on the local stick path —
axes of magnitude below 0.1 (that is, below 10 on the ±100 scale) yield
explicit zero calls on both the forward-speed and the turn axis — while the
relay path applies no dead zone: it issues zero calls on both axes only
when x and y are exactly zero, and any non-zero x issues a proportional
turn call. -/
theorem dead_zone_amended (now endTime speedScale turnScale lx ly rx ry : ℚ)
    (hly : |ly| < 1/10) (hrx : |rx| < 1/10) :
    sentMoveX (process_movement false now endTime speedScale turnScale
        lx ly rx ry) = some 0 ∧
    sentTurn (process_movement false now endTime speedScale turnScale
        lx ly rx ry) = some 0 ∧
    handle_movement_command true speedScale 0 0 =
      [SDKCall.moveX 0, SDKCall.turn 0] ∧
    (∀ x y : ℚ, x ≠ 0 →
      SDKCall.turn (pyTrunc (x * 1)) ∈
        handle_movement_command true speedScale x y) := by
  have hdly : deadZone ly = 0 := by unfold deadZone; rw [if_pos hly]
  have hdrx : deadZone rx = 0 := by unfold deadZone; rw [if_pos hrx]
  have hcond : ¬ (false = true ∧ now < endTime) := by simp
  have habs : ¬ (0 : ℚ) < |(0 : ℚ)| := by simp
  have hmain : process_movement false now endTime speedScale turnScale
      lx ly rx ry = [SDKCall.moveX 0, SDKCall.turn 0, SDKCall.moveY 0] := by
    rw [process_movement_eq, if_neg hcond, hdly, hdrx, if_neg habs,
      if_neg habs]
    rfl
  refine ⟨by rw [hmain]; rfl, by rw [hmain]; rfl, ?_, ?_⟩
  · unfold handle_movement_command
    simp
  · intro x y hx
    unfold handle_movement_command
    simp [hx]

/-- Witness for `dead_zone_amended`: sticks at 1/20 (5 on the ±100 scale)
produce zero calls on both axes, and the relay message `{x = 50, y = 5}`
contains a proportional turn call. -/
theorem dead_zone_amended_witness :
    sentMoveX (process_movement false 0 0 1 100 0 (1/20) (1/20) 0) =
      some 0 ∧
    sentTurn (process_movement false 0 0 1 100 0 (1/20) (1/20) 0) =
      some 0 ∧
    handle_movement_command true 1 0 0 =
      [SDKCall.moveX 0, SDKCall.turn 0] ∧
    SDKCall.turn (pyTrunc (50 * 1)) ∈ handle_movement_command true 1 50 5 := by
  have h := dead_zone_amended 0 0 1 100 0 (1/20) (1/20) 0
    (by rw [show |(1/20 : ℚ)| = 1/20 from abs_of_pos (by norm_num)]; norm_num)
    (by rw [show |(1/20 : ℚ)| = 1/20 from abs_of_pos (by norm_num)]; norm_num)
  exact ⟨h.1, h.2.1, h.2.2.1, h.2.2.2 50 5 (by norm_num)⟩

/-- C9: every speed-scale value received via a settings message is stored
as its clamp into `[0.1, 2.0]` — requesting 5.0 stores 2.0, requesting 0.0
stores 0.1, and the clamp is idempotent on stored values — and the local
speed increment/decrement buttons keep the value inside the same bounds. -/
theorem speed_scale_clamped :
    (∀ cur v : ℚ,
      handle_settings_command_speed true cur (SettingsAction.changeSpeed v) =
        clampSpeedScale v ∧
      1/10 ≤ handle_settings_command_speed true cur
          (SettingsAction.changeSpeed v) ∧
      handle_settings_command_speed true cur
          (SettingsAction.changeSpeed v) ≤ 2) ∧
    clampSpeedScale 5 = 2 ∧
    clampSpeedScale 0 = 1/10 ∧
    (∀ v : ℚ, clampSpeedScale (clampSpeedScale v) = clampSpeedScale v) ∧
    (∀ s : ℚ, 1/10 ≤ s → s ≤ 2 →
      1/10 ≤ speedDown s ∧ speedDown s ≤ 2 ∧
      1/10 ≤ speedUp s ∧ speedUp s ≤ 2) := by
  have hcl : ∀ v : ℚ, handle_settings_command_speed true v
      (SettingsAction.changeSpeed v) = clampSpeedScale v := fun v => rfl
  have hlo : ∀ v : ℚ, 1/10 ≤ clampSpeedScale v := fun v => le_max_left _ _
  have hhi : ∀ v : ℚ, clampSpeedScale v ≤ 2 :=
    fun v => max_le (by norm_num) (min_le_left _ _)
  refine ⟨fun cur v => ⟨rfl, hlo v, hhi v⟩, ?_, ?_, ?_, ?_⟩
  · unfold clampSpeedScale
    rw [min_eq_left (by norm_num : (2:ℚ) ≤ 5)]
    exact max_eq_right (by norm_num)
  · unfold clampSpeedScale
    rw [min_eq_right (by norm_num : (0:ℚ) ≤ 2)]
    exact max_eq_left (by norm_num)
  · intro v
    calc clampSpeedScale (clampSpeedScale v)
        = max (1/10) (min 2 (clampSpeedScale v)) := rfl
      _ = max (1/10) (clampSpeedScale v) := by rw [min_eq_right (hhi v)]
      _ = clampSpeedScale v := max_eq_right (hlo v)
  · intro s hs1 hs2
    refine ⟨le_max_left _ _, max_le (by norm_num) (by linarith), ?_, ?_⟩
    · exact le_min (by norm_num) (by linarith)
    · exact min_le_left _ _

/-- Witness for `speed_scale_clamped`: a requested value of 5 stores the
clamp, and the buttons keep a current scale of 1 inside the bounds. -/
theorem speed_scale_clamped_witness :
    handle_settings_command_speed true 1 (SettingsAction.changeSpeed 5) =
      clampSpeedScale 5 ∧
    1/10 ≤ speedDown 1 ∧ speedDown 1 ≤ 2 ∧
    1/10 ≤ speedUp 1 ∧ speedUp 1 ≤ 2 := by
  have h := speed_scale_clamped
  have hb := h.2.2.2.2 1 (by norm_num) (by norm_num)
  exact ⟨(h.1 1 5).1, hb.1, hb.2.1, hb.2.2.1, hb.2.2.2⟩

/-! Claim theorems for the resilient sensor reads. -/

/-- C7 counterexample: on the screen display path, after a good reading of
80 followed by six consecutive failures the displayed battery value is 0,
not the last-known-good value 80 — refuting the claim that the display
layer receives the last-known-good value when the failure count exceeds the
threshold. -/
theorem battery_fallback_counterexample :
    (screenFold initScreenBattery
        (some 80 :: List.replicate 5 none)).lastGoodBattery = 80 ∧
    (refresh_battery (screenFold initScreenBattery
        (some 80 :: List.replicate 5 none)) none).2 = 0 ∧
    (refresh_battery (screenFold initScreenBattery
        (some 80 :: List.replicate 5 none)) none).2 ≠
      ((screenFold initScreenBattery
        (some 80 :: List.replicate 5 none)).lastGoodBattery : ℚ) := by
  have hfold : screenFold initScreenBattery
      (some 80 :: List.replicate 5 none) =
      { batteryReadFailures := 5, lastGoodBattery := 80,
        consecutiveSuccessfulReads := 0 } := by
    norm_num [screenFold, List.replicate, refresh_battery, refreshBatteryFail,
      initScreenBattery, pyTrunc, maxScreenBatteryFailures]
  rw [hfold]
  refine ⟨rfl, ?_, ?_⟩ <;>
    norm_num [refresh_battery, refreshBatteryFail, maxScreenBatteryFailures]

/-- C7 (amended): on the MQTT telemetry path the reported battery level is
never null and equals the last-known-good value on every failed read —
below and above the threshold alike — and a single successful read resets
the failure counter; on the screen display path the displayed value is the
last-known-good value only while the failure count stays within the
threshold of 5, is 0 once the count exceeds it, and a single successful
positive read resets the counter. -/
theorem battery_fallback_amended :
    (∀ s : MqttBattery, s.batteryLevel = some s.lastKnownBattery →
      0 ≤ s.lastKnownBattery → s.lastKnownBattery ≤ 100 →
      (update_battery_data s none).batteryLevel =
        some s.lastKnownBattery ∧
      (update_battery_data s none).lastKnownBattery =
        s.lastKnownBattery) ∧
    (∀ (s : MqttBattery) (real : Option ℤ),
      (update_battery_data s real).batteryLevel ≠ none) ∧
    (∀ (s : MqttBattery) (v : ℤ),
      (update_battery_data s (some v)).batteryReadFailures = 0) ∧
    (∀ s : ScreenBattery,
      s.batteryReadFailures + 1 ≤ maxScreenBatteryFailures →
      (refresh_battery s none).2 = (s.lastGoodBattery : ℚ)) ∧
    (∀ s : ScreenBattery,
      maxScreenBatteryFailures < s.batteryReadFailures + 1 →
      (refresh_battery s none).2 = 0) ∧
    (∀ (s : ScreenBattery) (v : ℚ), 0 < v →
      (refresh_battery s (some v)).1.batteryReadFailures = 0) := by
  refine ⟨?_, ?_, ?_, ?_, ?_, ?_⟩
  · intro s hlev hlo hhi
    have hclamp : max 0 (min 100 s.lastKnownBattery) = s.lastKnownBattery := by
      rw [min_eq_right hhi, max_eq_right hlo]
    unfold update_battery_data
    by_cases hf : s.batteryReadFailures + 1 ≤ maxBatteryFailures
    · simp [hf, hlev, Option.getD, hclamp]
    · simp [hf, hlev, Option.getD, hclamp]
  · intro s real
    unfold update_battery_data
    cases real with
    | some v => simp
    | none =>
      by_cases hf : s.batteryReadFailures + 1 ≤ maxBatteryFailures <;>
        simp [hf]
  · intro s v
    rfl
  · intro s hf
    simp only [refresh_battery, refreshBatteryFail]
    rw [if_pos hf]
  · intro s hf
    simp only [refresh_battery, refreshBatteryFail]
    rw [if_neg (not_le.mpr hf)]
  · intro s v hv
    simp only [refresh_battery]
    rw [if_pos hv]

/-- Witness for `battery_fallback_amended`: an MQTT state with failure
count 2 and cached value 70 keeps reporting 70 on a failed read, and a
screen state with 4 prior failures and cached value 80 displays 80 on the
next failure. -/
theorem battery_fallback_amended_witness :
    (update_battery_data ⟨2, 70, some 70⟩ none).batteryLevel = some 70 ∧
    (update_battery_data ⟨2, 70, some 70⟩ none).lastKnownBattery = 70 ∧
    (refresh_battery ⟨4, 80, 0⟩ none).2 = ((80 : ℤ) : ℚ) ∧
    (refresh_battery ⟨9, 80, 0⟩ none).2 = 0 ∧
    (refresh_battery ⟨9, 80, 0⟩ (some 60)).1.batteryReadFailures = 0 := by
  have h := battery_fallback_amended
  have h1 := h.1 ⟨2, 70, some 70⟩ rfl (by norm_num) (by norm_num)
  exact ⟨h1.1, h1.2,
    h.2.2.2.1 ⟨4, 80, 0⟩ (by norm_num [maxScreenBatteryFailures]),
    h.2.2.2.2.1 ⟨9, 80, 0⟩ (by norm_num [maxScreenBatteryFailures]),
    h.2.2.2.2.2 ⟨9, 80, 0⟩ 60 (by norm_num)⟩

/-! Helper lemmas for the sensor-retry loop. -/

/-- The retry loop makes at most as many calls as it has attempts left. -/
theorem retryFuel_calls_le (outs : ℕ → SensorAttempt) :
    ∀ (fuel i : ℕ), (retryFuel outs i fuel).2.1 ≤ fuel := by
  intro fuel
  induction fuel with
  | zero => intro i; simp [retryFuel]
  | succ f ih =>
    intro i
    cases h : outs i with
    | val q => simp [retryFuel, h]
    | nullRet =>
      simp only [retryFuel, h]
      exact Nat.succ_le_succ (ih (i + 1))
    | err =>
      simp only [retryFuel, h]
      exact Nat.succ_le_succ (ih (i + 1))

/-- If no attempt in range yields a numeric value, the retry loop returns
`none` after using every attempt. -/
theorem retryFuel_none (outs : ℕ → SensorAttempt) :
    ∀ (fuel i : ℕ),
    (∀ j, j < fuel → ∀ q, outs (i + j) ≠ SensorAttempt.val q) →
    (retryFuel outs i fuel).1 = none ∧
    (retryFuel outs i fuel).2.1 = fuel := by
  intro fuel
  induction fuel with
  | zero => intro i _; exact ⟨rfl, rfl⟩
  | succ f ih =>
    intro i h
    have hshift : ∀ j, j < f → ∀ q,
        outs (i + 1 + j) ≠ SensorAttempt.val q := by
      intro j hj q
      have hx : i + 1 + j = i + (j + 1) := by omega
      rw [hx]
      exact h (j + 1) (Nat.succ_lt_succ hj) q
    have hr := ih (i + 1) hshift
    cases hh : outs i with
    | val q =>
      exact absurd hh (by simpa using h 0 (Nat.succ_pos f) q)
    | nullRet => simp [retryFuel, hh, hr.1, hr.2]
    | err => simp [retryFuel, hh, hr.1, hr.2]

/-- The retry loop returns the first numeric value as soon as it is
obtained, making no further calls. -/
theorem retryFuel_first_val (outs : ℕ → SensorAttempt) :
    ∀ (fuel i k : ℕ) (q : ℚ), k < fuel →
    outs (i + k) = SensorAttempt.val q →
    (∀ j, j < k → ∀ p, outs (i + j) ≠ SensorAttempt.val p) →
    (retryFuel outs i fuel).1 = some q ∧
    (retryFuel outs i fuel).2.1 = k + 1 := by
  intro fuel
  induction fuel with
  | zero => intro i k q hk; exact absurd hk (Nat.not_lt_zero k)
  | succ f ih =>
    intro i k q hk hval hbefore
    cases k with
    | zero =>
      have hv : outs i = SensorAttempt.val q := by simpa using hval
      simp [retryFuel, hv]
    | succ k' =>
      have hne : ∀ p, outs i ≠ SensorAttempt.val p := by
        intro p
        simpa using hbefore 0 (Nat.succ_pos k') p
      have hval' : outs (i + 1 + k') = SensorAttempt.val q := by
        rw [show i + 1 + k' = i + (k' + 1) by omega]
        exact hval
      have hbefore' : ∀ j, j < k' → ∀ p,
          outs (i + 1 + j) ≠ SensorAttempt.val p := by
        intro j hj p
        rw [show i + 1 + j = i + (j + 1) by omega]
        exact hbefore (j + 1) (Nat.succ_lt_succ hj) p
      have hr := ih (i + 1) k' q (Nat.lt_of_succ_lt_succ hk) hval' hbefore'
      cases hh : outs i with
      | val p => exact absurd hh (hne p)
      | nullRet => simp [retryFuel, hh, hr.1, hr.2]
      | err => simp [retryFuel, hh, hr.1, hr.2]

/-- When no attempt raises an exception, the retry loop sleeps zero
times. -/
theorem retryFuel_no_err (outs : ℕ → SensorAttempt) :
    ∀ (fuel i : ℕ),
    (∀ j, j < fuel → outs (i + j) ≠ SensorAttempt.err) →
    (retryFuel outs i fuel).2.2 = 0 := by
  intro fuel
  induction fuel with
  | zero => intro i _; rfl
  | succ f ih =>
    intro i h
    have hshift : ∀ j, j < f → outs (i + 1 + j) ≠ SensorAttempt.err := by
      intro j hj
      rw [show i + 1 + j = i + (j + 1) by omega]
      exact h (j + 1) (Nat.succ_lt_succ hj)
    have hr := ih (i + 1) hshift
    cases hh : outs i with
    | val q => simp [retryFuel, hh]
    | nullRet => simp [retryFuel, hh, hr]
    | err => exact absurd hh (by simpa using h 0 (Nat.succ_pos f))

/-- C8 counterexample: a sensor function that returns null (without
raising) on every call with `max_retries = 2` is called three times with
zero backoff sleeps — refuting the claim that a short backoff is applied
between attempts. -/
theorem retry_backoff_counterexample :
    (read_sensor_with_retry (fun _ => SensorAttempt.nullRet) 2).2.1 = 3 ∧
    (read_sensor_with_retry (fun _ => SensorAttempt.nullRet) 2).2.2 = 0 ∧
    ¬ (2 ≤ (read_sensor_with_retry
        (fun _ => SensorAttempt.nullRet) 2).2.2) := by
  have hz : (read_sensor_with_retry
      (fun _ => SensorAttempt.nullRet) 2).2.2 = 0 := rfl
  refine ⟨rfl, hz, ?_⟩
  rw [hz]
  norm_num

/-- C8 (amended): the retry-read operation calls the sensor function at
most `maxRetries + 1` times, returns the first non-null numeric result as
soon as one is obtained (making no further calls), and returns null after
exhausting all attempts; a short backoff is applied only after an attempt
that raises an exception — in particular a run without exceptions sleeps
zero times. -/
theorem retry_contract_amended (outs : ℕ → SensorAttempt) (m : ℕ) :
    (read_sensor_with_retry outs m).2.1 ≤ m + 1 ∧
    ((∀ i, i ≤ m → ∀ q, outs i ≠ SensorAttempt.val q) →
      (read_sensor_with_retry outs m).1 = none ∧
      (read_sensor_with_retry outs m).2.1 = m + 1) ∧
    (∀ (k : ℕ) (q : ℚ), k ≤ m → outs k = SensorAttempt.val q →
      (∀ j, j < k → ∀ p, outs j ≠ SensorAttempt.val p) →
      (read_sensor_with_retry outs m).1 = some q ∧
      (read_sensor_with_retry outs m).2.1 = k + 1) ∧
    ((∀ i, i ≤ m → outs i ≠ SensorAttempt.err) →
      (read_sensor_with_retry outs m).2.2 = 0) := by
  refine ⟨retryFuel_calls_le outs (m + 1) 0, ?_, ?_, ?_⟩
  · intro h
    exact retryFuel_none outs (m + 1) 0 (fun j hj q => by
      simpa using h j (Nat.lt_succ_iff.mp hj) q)
  · intro k q hk hval hbefore
    exact retryFuel_first_val outs (m + 1) 0 k q (Nat.lt_succ_of_le hk)
      (by simpa using hval) (fun j hj p => by simpa using hbefore j hj p)
  · intro h
    exact retryFuel_no_err outs (m + 1) 0 (fun j hj => by
      simpa using h j (Nat.lt_succ_iff.mp hj))

/-- Witness for `retry_contract_amended`: on the outcome sequence whose
first call raises and whose second returns 7, the retry read returns 7
after exactly two calls. -/
theorem retry_contract_amended_witness :
    (read_sensor_with_retry exOuts 2).1 = some 7 ∧
    (read_sensor_with_retry exOuts 2).2.1 = 2 := by
  exact (retry_contract_amended exOuts 2).2.2.1 1 7 (by norm_num) rfl
    (by
      intro j hj p
      have hj0 : j = 0 := by omega
      subst hj0
      simp [exOuts])

end Rider
